import Mathlib

/-!
Verification of the Pomodoro timer daemon (`scripts/pomodoro.py`).

The timer state machine, its snapshot projection, the subscriber-registry
broadcast, and the singleton startup check are shallowly embedded below.
Python integers are modelled as `Int` (Lean's `/` and `%` on `Int` are
Euclidean, which coincides with Python's floor division and nonnegative
modulus for positive divisors, the only case arising here).
-/

set_option autoImplicit false

namespace Pomodoro

/-- Configuration constant `WORK_DURATION = 1500` (25 minutes). -/
def WORK_DURATION : Int := 1500

/-- Configuration constant `SHORT_BREAK = 300` (5 minutes). -/
def SHORT_BREAK : Int := 300

/-- Configuration constant `LONG_BREAK = 900` (15 minutes). -/
def LONG_BREAK : Int := 900

/-- The `self.status` string field only ever holds `"idle"`, `"running"` or
`"paused"`; it is modelled as an enumeration. -/
inductive Status where
  | idle
  | running
  | paused
deriving DecidableEq, Repr

/-- The mutable fields of `PomodoroTimer` (`__init__`), minus the lock and
the listener list, which are modelled separately. Field names follow the
source: `time_left` is the remaining seconds, `duration` the current segment
length, `sessions` the work-session counter, `is_break` the segment kind and
`running` the tick-enable flag. -/
structure State where
  status : Status
  time_left : Int
  sessions : Int
  is_break : Bool
  running : Bool
  duration : Int
deriving DecidableEq, Repr

/-- The initial state built by `PomodoroTimer.__init__`. -/
def init : State :=
  { status := .idle
    time_left := WORK_DURATION
    sessions := 0
    is_break := false
    running := false
    duration := WORK_DURATION }

/-- `PomodoroTimer.toggle` (lines 79-103): pause when running, resume when
paused, otherwise start a new session, choosing the duration from the segment
kind and, for breaks, the `sessions % 4 == 0 and sessions > 0` rule; starting
a work session increments `sessions`. -/
def toggle (s : State) : State :=
  if s.running then
    { s with status := .paused, running := false }
  else if s.status = .paused then
    { s with status := .running, running := true }
  else
    let d : Int :=
      if s.is_break then
        if s.sessions % 4 = 0 ∧ s.sessions > 0 then LONG_BREAK else SHORT_BREAK
      else WORK_DURATION
    let sess : Int := if s.is_break then s.sessions else s.sessions + 1
    { s with status := .running, running := true, duration := d,
             sessions := sess, time_left := d }

/-- `PomodoroTimer.stop` (lines 105-114): unconditional reset. -/
def stop (s : State) : State :=
  { s with status := .idle, running := false, time_left := WORK_DURATION,
           duration := WORK_DURATION, sessions := 0, is_break := false }

/-- `PomodoroTimer.skip` (lines 116-133): go idle and flip the segment,
with the break duration chosen by the `sessions % 4 == 0 and sessions > 0`
rule. -/
def skip (s : State) : State :=
  if s.is_break then
    { s with running := false, status := .idle, is_break := false,
             time_left := WORK_DURATION, duration := WORK_DURATION }
  else
    if s.sessions % 4 = 0 ∧ s.sessions > 0 then
      { s with running := false, status := .idle, is_break := true,
               time_left := LONG_BREAK, duration := LONG_BREAK }
    else
      { s with running := false, status := .idle, is_break := true,
               time_left := SHORT_BREAK, duration := SHORT_BREAK }

/-- `PomodoroTimer.tick` (lines 135-165): when running with time left,
decrement; on reaching zero go idle and flip the segment. Note the work
completion branch chooses the long break on `sessions % 4 == 0` alone,
without the `sessions > 0` guard used by `toggle` and `skip`. -/
def tick (s : State) : State :=
  if s.running ∧ s.time_left > 0 then
    let t := s.time_left - 1
    if t = 0 then
      if s.is_break then
        { s with time_left := WORK_DURATION, duration := WORK_DURATION,
                 running := false, status := .idle, is_break := false }
      else
        if s.sessions % 4 = 0 then
          { s with time_left := LONG_BREAK, duration := LONG_BREAK,
                   running := false, status := .idle, is_break := true }
        else
          { s with time_left := SHORT_BREAK, duration := SHORT_BREAK,
                   running := false, status := .idle, is_break := true }
    else
      { s with time_left := t }
  else s

/-- The four mutating operations of the timer. -/
inductive Op where
  | toggle
  | stop
  | skip
  | tick
deriving DecidableEq, Repr

/-- Dispatch one operation. -/
def applyOp (s : State) : Op → State
  | .toggle => toggle s
  | .stop => stop s
  | .skip => skip s
  | .tick => tick s

/-- Run a sequence of operations from a given state. -/
def runOps (s : State) (ops : List Op) : State :=
  ops.foldl applyOp s

/-- The range invariant of claim C1. -/
def InRange (s : State) : Prop :=
  0 ≤ s.time_left ∧ s.time_left ≤ s.duration

lemma inRange_applyOp (s : State) (o : Op) (h : InRange s) :
    InRange (applyOp s o) := by
  obtain ⟨h0, h1⟩ := h
  cases o with
  | toggle =>
      simp only [applyOp, toggle, InRange]
      split_ifs <;> simp_all [WORK_DURATION, SHORT_BREAK, LONG_BREAK]
  | stop =>
      simp [applyOp, stop, InRange, WORK_DURATION]
  | skip =>
      simp only [applyOp, skip, InRange]
      split_ifs <;> simp [WORK_DURATION, SHORT_BREAK, LONG_BREAK]
  | tick =>
      simp only [applyOp, tick, InRange]
      split_ifs <;> simp_all [WORK_DURATION, SHORT_BREAK, LONG_BREAK]
      omega

lemma inRange_runOps (ops : List Op) (s : State) (h : InRange s) :
    InRange (runOps s ops) := by
  induction ops generalizing s with
  | nil => exact h
  | cons o rest ih => exact ih (applyOp s o) (inRange_applyOp s o h)

/-- C1: for every sequence of toggle/stop/skip/tick operations starting from
the initial state (idle, work segment, remaining = full work duration),
`0 ≤ time_left ≤ duration` holds after every operation. -/
theorem c1_remaining_in_range (ops : List Op) :
    0 ≤ (runOps init ops).time_left ∧
    (runOps init ops).time_left ≤ (runOps init ops).duration :=
  inRange_runOps ops init (by constructor <;> simp [init, WORK_DURATION])

/-- Claim C2 as stated: `sessions` increases by exactly 1 only when `tick`
reaches zero during a work segment; `toggle`, `skip` and `stop` never
increase it. -/
def sessionsOnlyFromTick : Prop :=
  ∀ s : State,
    (toggle s).sessions ≤ s.sessions ∧
    (skip s).sessions ≤ s.sessions ∧
    (stop s).sessions ≤ s.sessions ∧
    ((tick s).sessions = s.sessions ∨
      ((tick s).sessions = s.sessions + 1 ∧ s.running = true ∧
        s.is_break = false ∧ s.time_left = 1))

/-- C2 counterexample: `toggle` from the initial idle work state increases
`sessions` from 0 to 1, so the claim as stated is false. -/
theorem c2_counterexample : ¬ sessionsOnlyFromTick := by
  intro h
  have h1 := (h init).1
  revert h1
  decide

/-- C2 amended: `sessions` increases by exactly 1 exactly when `toggle`
starts a new work segment (not running, not paused, work segment); `skip`
and `tick` never change `sessions`; `stop` resets it to 0. Natural
completion via `tick` does not touch the counter. -/
theorem c2_amended_sessions_from_toggle (s : State) :
    (toggle s).sessions =
      (if s.running = false ∧ s.status ≠ Status.paused ∧ s.is_break = false
        then s.sessions + 1 else s.sessions) ∧
    (skip s).sessions = s.sessions ∧
    (tick s).sessions = s.sessions ∧
    (stop s).sessions = 0 := by
  refine ⟨?_, ?_, ?_, ?_⟩ <;>
    simp only [toggle, stop, skip, tick] <;>
    split_ifs <;>
    simp_all

/-- C3: `toggle` on an idle work state increments `sessions`, sets both the
duration and the remaining time to the full work duration, and enters the
running phase. -/
theorem c3_toggle_idle_work (s : State)
    (hrun : s.running = false) (hst : s.status = Status.idle)
    (hbr : s.is_break = false) :
    toggle s =
      { status := .running, time_left := WORK_DURATION,
        sessions := s.sessions + 1, is_break := false, running := true,
        duration := WORK_DURATION } := by
  cases s
  simp_all [toggle]

/-- Witness for C3 at the initial state. -/
theorem c3_toggle_idle_work_witness :
    toggle init =
      { status := .running, time_left := WORK_DURATION, sessions := 1,
        is_break := false, running := true, duration := WORK_DURATION } := by
  have h := c3_toggle_idle_work init rfl rfl rfl
  simpa [init] using h

/-- C4: `stop` resets every prior state to idle, work segment, full work
duration remaining and total, and a zero session counter. -/
theorem c4_stop_resets (s : State) :
    stop s =
      { status := .idle, time_left := WORK_DURATION, sessions := 0,
        is_break := false, running := false, duration := WORK_DURATION } := by
  cases s
  simp [stop]

/-- The dictionary built by `PomodoroTimer.get_state` (lines 38-55). Both
icon strings on line 45 of the source are literally empty. -/
structure Snapshot where
  status : Status
  time_left : Int
  time_display : String
  sessions : Int
  is_break : Bool
  percent : Int
  icon : String
deriving DecidableEq, Repr

/-- Python's `f"{seconds:02d}"`: a nonnegative single digit is padded with a
leading zero; other values print as `str` does. -/
def pad2 (n : Int) : String :=
  if 0 ≤ n ∧ n < 10 then "0" ++ toString n else toString n

/-- `PomodoroTimer.get_state` (lines 38-55): minutes and seconds from
`time_left`, percent elapsed from `duration` (guarded against a zero
duration), and the break/work icon. -/
def get_state (s : State) : Snapshot :=
  let minutes := s.time_left / 60
  let seconds := s.time_left % 60
  { status := s.status
    time_left := s.time_left
    time_display := toString minutes ++ ":" ++ pad2 seconds
    sessions := s.sessions
    is_break := s.is_break
    percent :=
      if s.duration > 0 then (s.duration - s.time_left) * 100 / s.duration
      else 0
    icon := "" }

/-- The display format stated by the spec: minutes, a colon, and the seconds
zero-padded to two digits. -/
def spec_time_display (t : Int) : String :=
  toString (t / 60) ++ ":" ++
    (if t % 60 < 10 then "0" ++ toString (t % 60) else toString (t % 60))

/-- The percent formula stated by the spec:
`floor((duration - remaining) * 100 / duration)`, and 0 when the duration is
zero. -/
def spec_percent (t d : Int) : Int :=
  if d = 0 then 0 else (d - t) * 100 / d

/-- C6: on any state satisfying the range invariant, the snapshot's
`time_display` matches the spec's minutes/zero-padded-seconds format, its
`percent` matches the spec's floor formula (0 for a zero duration), and
`percent` always lies in `[0, 100]`. -/
theorem c6_snapshot_projection (s : State)
    (h0 : 0 ≤ s.time_left) (h1 : s.time_left ≤ s.duration) :
    (get_state s).time_display = spec_time_display s.time_left ∧
    (get_state s).percent = spec_percent s.time_left s.duration ∧
    0 ≤ (get_state s).percent ∧ (get_state s).percent ≤ 100 := by
  have hd : 0 ≤ s.duration := le_trans h0 h1
  have hmod : 0 ≤ s.time_left % 60 := Int.emod_nonneg s.time_left (by norm_num)
  refine ⟨?_, ?_, ?_, ?_⟩
  · simp only [get_state, spec_time_display, pad2]
    split_ifs <;> simp_all
  · simp only [get_state, spec_percent]
    rcases lt_or_eq_of_le hd with hpos | hzero
    · rw [if_pos hpos, if_neg (by omega)]
    · rw [if_neg (by omega), if_pos hzero.symm]
  · simp only [get_state]
    split_ifs with hpos
    · exact Int.ediv_nonneg (by nlinarith) (le_of_lt hpos)
    · exact le_refl 0
  · simp only [get_state]
    split_ifs with hpos
    · have hle : (s.duration - s.time_left) * 100 ≤ 100 * s.duration := by
        nlinarith
      have := Int.ediv_le_ediv hpos hle
      rwa [Int.mul_ediv_cancel 100 (ne_of_gt hpos)] at this
    · norm_num

/-- Witness for C6 at the initial state: 0 ≤ 1500 ≤ 1500 and the snapshot
projection facts hold there. -/
theorem c6_snapshot_projection_witness :
    (0 : Int) ≤ init.time_left ∧ init.time_left ≤ init.duration ∧
    ((get_state init).time_display = spec_time_display init.time_left ∧
      (get_state init).percent = spec_percent init.time_left init.duration ∧
      0 ≤ (get_state init).percent ∧ (get_state init).percent ≤ 100) :=
  ⟨by decide, by decide,
    c6_snapshot_projection init (by decide) (by decide)⟩

/-- The spec's break-duration rule: long exactly when the completed-work
counter is a positive multiple of 4, otherwise short. -/
def breakDur (n : Int) : Int :=
  if n % 4 = 0 ∧ 0 < n then LONG_BREAK else SHORT_BREAK

/-- States reachable from the initial state by the four operations. -/
inductive Reachable : State → Prop
  | init : Reachable init
  | step (s : State) (o : Op) : Reachable s → Reachable (applyOp s o)

/-- Auxiliary invariant: the session counter is nonnegative, and whenever a
work segment is running or paused at least one session has been started. -/
def SessionsInv (s : State) : Prop :=
  0 ≤ s.sessions ∧
  (s.is_break = false → (s.running = true ∨ s.status = Status.paused) →
    0 < s.sessions)

lemma sessionsInv_applyOp (s : State) (o : Op) (h : SessionsInv s) :
    SessionsInv (applyOp s o) := by
  obtain ⟨h0, h1⟩ := h
  cases o with
  | toggle =>
      simp only [applyOp, toggle, SessionsInv] at *
      split_ifs <;> simp_all
      omega
  | stop =>
      simp [applyOp, stop, SessionsInv]
  | skip =>
      simp only [applyOp, skip, SessionsInv] at *
      split_ifs <;> simp_all
  | tick =>
      simp only [applyOp, tick, SessionsInv] at *
      split_ifs <;> simp_all

lemma sessionsInv_of_reachable (s : State) (h : Reachable s) :
    SessionsInv s := by
  induction h with
  | init => exact ⟨le_refl 0, by simp [init]⟩
  | step s o _ ih => exact sessionsInv_applyOp s o ih

/-- C5: from any reachable state, every entry into a break segment — by
`skip` from work, by `toggle` starting a pending break, or by `tick`
completing a work segment — sets the duration to the long break constant
exactly when `sessions` is a positive multiple of 4, and otherwise to the
short break constant. -/
theorem c5_break_duration_rule (s : State) (hr : Reachable s) :
    (s.is_break = false →
      (skip s).is_break = true ∧ (skip s).duration = breakDur s.sessions) ∧
    (s.running = false → s.status ≠ Status.paused → s.is_break = true →
      (toggle s).duration = breakDur s.sessions) ∧
    (s.running = true → s.is_break = false → s.time_left = 1 →
      (tick s).is_break = true ∧ (tick s).duration = breakDur s.sessions) := by
  have hinv := sessionsInv_of_reachable s hr
  obtain ⟨hn, hw⟩ := hinv
  refine ⟨?_, ?_, ?_⟩
  · intro hbr
    simp only [skip, breakDur, hbr]
    split_ifs <;> simp_all
  · intro hrun hst hbr
    simp only [toggle, breakDur, hbr, hrun]
    split_ifs <;> simp_all
  · intro hrun hbr ht
    have hpos : 0 < s.sessions := hw hbr (Or.inl hrun)
    simp only [tick, breakDur, hrun, hbr, ht]
    split_ifs <;> simp_all

/-- Witness for C5 at the reachable state obtained by one `toggle` from the
initial state: completing that first work segment (one second left) yields a
short break of 300 seconds, and skipping from the initial state does too. -/
theorem c5_break_duration_rule_witness :
    (skip init).is_break = true ∧ (skip init).duration = breakDur init.sessions := by
  have h := c5_break_duration_rule init Reachable.init
  exact h.1 rfl

/-- A subscriber channel in the listener registry: its identity and whether
a `sendall` to it succeeds. -/
structure Chan where
  id : Nat
  ok : Bool
deriving DecidableEq, Repr

/-- The observable outcome of one `save_state` broadcast (lines 57-77): the
listener list after the dead-listener sweep, the channels that received the
snapshot line, and the channels that were explicitly closed. -/
structure BroadcastResult where
  listeners : List Chan
  delivered : List Nat
  closed : List Nat
deriving DecidableEq, Repr

/-- The send loop of `save_state`: try `sendall` on every listener in order,
collecting the ids delivered to and the dead listeners whose send failed. -/
def sendPass : List Chan → List Nat × List Chan
  | [] => ([], [])
  | c :: rest =>
      let p := sendPass rest
      if c.ok then (c.id :: p.1, p.2) else (p.1, c :: p.2)

/-- `PomodoroTimer.save_state` (lines 57-77), broadcast part: send to every
listener, then remove each dead listener from the list
(`if listener in self.listeners: self.listeners.remove(listener)` is
`List.erase`). The source removes dead listeners but contains no `close()`
call on them, so `closed` is always empty. -/
def save_state_broadcast (ls : List Chan) : BroadcastResult :=
  { listeners := (sendPass ls).2.foldl (fun acc c => acc.erase c) ls
    delivered := (sendPass ls).1
    closed := [] }

/-- Claim C7 as stated: when exactly one of N listeners fails, that listener
is removed from the registry AND its channel is closed, while the other
N - 1 listeners still receive the snapshot. -/
def broadcastRemovesAndCloses : Prop :=
  ∀ (a b : List Chan) (c : Chan),
    (∀ x ∈ a, x.ok = true) → (∀ x ∈ b, x.ok = true) → c.ok = false →
    (save_state_broadcast (a ++ c :: b)).listeners = a ++ b ∧
    (save_state_broadcast (a ++ c :: b)).delivered = (a ++ b).map Chan.id ∧
    (save_state_broadcast (a ++ c :: b)).closed = [c.id]

/-- C7 counterexample: with listeners 1, 2, 3 where only 2 is dead, the
broadcast removes 2 and delivers to 1 and 3, but closes nothing — the
"channel is closed" part of the claim is false. -/
theorem c7_counterexample : ¬ broadcastRemovesAndCloses := by
  intro h
  have hc := h [⟨1, true⟩] [⟨3, true⟩] ⟨2, false⟩ (by decide) (by decide) rfl
  revert hc
  decide

lemma sendPass_all_ok (l : List Chan) (h : ∀ x ∈ l, x.ok = true) :
    sendPass l = (l.map Chan.id, []) := by
  induction l with
  | nil => rfl
  | cons c rest ih =>
      have hc := h c (by simp)
      have hr := ih (fun x hx => h x (by simp [hx]))
      simp [sendPass, hr, hc]

lemma sendPass_ok_append (a l : List Chan) (h : ∀ x ∈ a, x.ok = true) :
    sendPass (a ++ l) = (a.map Chan.id ++ (sendPass l).1, (sendPass l).2) := by
  induction a with
  | nil => simp
  | cons c rest ih =>
      have hc := h c (by simp)
      have hr := ih (fun x hx => h x (by simp [hx]))
      simp [sendPass, hr, hc]

lemma not_mem_of_all_ok (l : List Chan) (c : Chan)
    (h : ∀ x ∈ l, x.ok = true) (hc : c.ok = false) : c ∉ l := by
  intro hmem
  rw [h c hmem] at hc
  exact Bool.noConfusion hc

/-- C7 amended: when exactly one of N listeners fails, that listener — and
only that listener — is removed from the registry, the other N - 1 all
receive the snapshot, and no channel is closed (the source drops dead
listeners without an explicit close; the failed send is swallowed, so the
triggering mutation completes). -/
theorem c7_amended_broadcast (a b : List Chan) (c : Chan)
    (ha : ∀ x ∈ a, x.ok = true) (hb : ∀ x ∈ b, x.ok = true)
    (hc : c.ok = false) :
    (save_state_broadcast (a ++ c :: b)).listeners = a ++ b ∧
    (save_state_broadcast (a ++ c :: b)).delivered = (a ++ b).map Chan.id ∧
    (save_state_broadcast (a ++ c :: b)).closed = [] := by
  have hsp : sendPass (a ++ c :: b) = ((a ++ b).map Chan.id, [c]) := by
    rw [sendPass_ok_append a (c :: b) ha]
    simp [sendPass, sendPass_all_ok b hb, hc]
  have hna : c ∉ a := not_mem_of_all_ok a c ha hc
  refine ⟨?_, ?_, rfl⟩
  · simp only [save_state_broadcast, hsp, List.foldl_cons, List.foldl_nil]
    rw [List.erase_append_right _ hna, List.erase_cons_head]
  · simp [save_state_broadcast, hsp]

/-- Witness for C7 amended with listeners 1, 2, 3 where only 2 is dead. -/
theorem c7_amended_broadcast_witness :
    (save_state_broadcast [⟨1, true⟩, ⟨2, false⟩, ⟨3, true⟩]).listeners =
      [⟨1, true⟩, ⟨3, true⟩] ∧
    (save_state_broadcast [⟨1, true⟩, ⟨2, false⟩, ⟨3, true⟩]).delivered =
      [1, 3] ∧
    (save_state_broadcast [⟨1, true⟩, ⟨2, false⟩, ⟨3, true⟩]).closed = [] :=
  c7_amended_broadcast [⟨1, true⟩] [⟨3, true⟩] ⟨2, false⟩
    (by decide) (by decide) rfl

/-- A registered streaming subscriber: its identity and the list of snapshot
lines (recorded as the underlying state) it has received so far. -/
structure Sub where
  sid : Nat
  log : List State
deriving DecidableEq, Repr

/-- The daemon state seen by subscribers: the timer plus the registry. -/
structure DState where
  timer : State
  subs : List Sub
deriving DecidableEq, Repr

/-- Daemon-level events: a `listen` registration, or one of the four
mutating commands/ticks. -/
inductive Event where
  | listen (i : Nat)
  | cmd (o : Op)
deriving DecidableEq, Repr

/-- One daemon event, sends assumed to succeed. `listen`
(`handle_client`, lines 192-197) appends the connection to the listener list
and sends the current snapshot to that connection only. A mutating command
or tick applies the operation and then `save_state` broadcasts the new
snapshot to every listener — unconditionally, even when the operation left
the state unchanged (`tick`, line 165, is outside the `if`). -/
def dstep (d : DState) : Event → DState
  | .listen i => { d with subs := d.subs ++ [{ sid := i, log := [d.timer] }] }
  | .cmd o =>
      let t := applyOp d.timer o
      { timer := t
        subs := d.subs.map (fun u => { u with log := u.log ++ [t] }) }

/-- Run a sequence of daemon events. -/
def runEvents (d : DState) (evs : List Event) : DState := evs.foldl dstep d

/-- The daemon state at startup: initial timer, no subscribers. -/
def dinit : DState := { timer := init, subs := [] }

/-- Claim C8 as stated: a `listen` client receives the current snapshot as
its first line immediately on registration, and it receives a further line
only when the state actually changes (no lines between two consecutive
state changes). -/
def listenLinesMatchChanges : Prop :=
  (∀ (d : DState) (i : Nat),
    (dstep d (Event.listen i)).subs.getLast? =
      some { sid := i, log := [d.timer] }) ∧
  (∀ (d : DState) (o : Op), applyOp d.timer o = d.timer →
    (dstep d (Event.cmd o)).subs = d.subs)

/-- C8 counterexample: after registering a subscriber on the idle initial
state, a `tick` leaves the timer state unchanged yet still broadcasts, so
the subscriber receives a second, duplicate line with no intervening state
change. -/
theorem c8_counterexample : ¬ listenLinesMatchChanges := by
  intro h
  have hc := h.2 (dstep dinit (Event.listen 0)) Op.tick (by decide)
  revert hc
  decide

lemma runCmds_log_lengths (ops : List Op) (d : DState) :
    (runEvents d (ops.map Event.cmd)).subs.map (fun u => u.log.length) =
      d.subs.map (fun u => u.log.length + ops.length) := by
  induction ops generalizing d with
  | nil => simp [runEvents]
  | cons o rest ih =>
      simp only [List.map_cons, runEvents, List.foldl_cons] at ih ⊢
      rw [ih (dstep d (Event.cmd o))]
      simp only [dstep, List.map_map, List.length_cons]
      apply List.map_congr_left
      intro u _
      simp only [Function.comp_apply, List.length_append, List.length_cons,
        List.length_nil]
      omega

/-- C8 amended: a `listen` client receives the current snapshot as its first
and only line immediately on registration, and thereafter receives exactly
one line per completed operation (toggle/stop/skip/tick) — whether or not
that operation changed the state, since every operation ends in a broadcast
(idle ticks therefore produce duplicate lines). -/
theorem c8_amended_one_line_per_op (d : DState) (i : Nat) (ops : List Op) :
    (dstep d (Event.listen i)).subs.getLast? =
      some { sid := i, log := [d.timer] } ∧
    (runEvents (dstep d (Event.listen i)) (ops.map Event.cmd)).subs.map
        (fun u => u.log.length) =
      d.subs.map (fun u => u.log.length + ops.length) ++ [1 + ops.length] := by
  constructor
  · simp [dstep]
  · rw [runCmds_log_lengths]
    simp [dstep, Nat.add_comm]

/-- The environment `PomodoroDaemon.run` (lines 233-253) inspects before
binding: the PID marker file, abstracted as already read and parsed
(`none` = file absent; `some none` = contents that make `int()` raise
`ValueError`; `some (some p)` = contents parsing to process id `p`), and
process liveness as observed by `os.kill(pid, 0)`. -/
structure LauncherEnv where
  marker : Option (Option Int)
  alive : Int → Bool

/-- Outcome of the startup check: either a refusal to start (with the pid
found, the exit code used, whether a diagnostic went to standard error, and
whether the marker was touched), or proceeding to bind (recording whether a
stale marker was removed). -/
inductive StartOutcome where
  | conflict (pid : Int) (exitCode : Nat) (stderrDiag : Bool)
      (markerRemoved : Bool)
  | proceed (markerRemoved : Bool)
deriving DecidableEq, Repr

/-- The singleton check at the top of `PomodoroDaemon.run` (lines 235-245):
a present marker naming a live process aborts with a diagnostic on standard
error and exit code 1, touching nothing; a marker naming a dead process, or
one whose contents fail to parse (both land in the
`except (OSError, ValueError)` arm), is unlinked and startup proceeds; an
absent marker proceeds directly. -/
def startup_check (env : LauncherEnv) : StartOutcome :=
  match env.marker with
  | none => .proceed false
  | some none => .proceed true
  | some (some pid) =>
      if env.alive pid then .conflict pid 1 true false
      else .proceed true

/-- C9: a live-process marker makes the launch fail with a stderr
diagnostic and exit code 1 without changing any state; a dead-process or
unparseable marker is removed and startup proceeds. -/
theorem c9_singleton_startup (env : LauncherEnv) :
    (∀ p, env.marker = some (some p) → env.alive p = true →
      startup_check env = StartOutcome.conflict p 1 true false) ∧
    (∀ p, env.marker = some (some p) → env.alive p = false →
      startup_check env = StartOutcome.proceed true) ∧
    (env.marker = some none → startup_check env = StartOutcome.proceed true) := by
  refine ⟨fun p hm ha => ?_, fun p hm ha => ?_, fun hm => ?_⟩
  · simp [startup_check, hm, ha]
  · simp [startup_check, hm, ha]
  · simp [startup_check, hm]

/-- Witness for C9: a marker naming live process 7 yields a conflict with
exit code 1 and a stderr diagnostic. -/
theorem c9_singleton_startup_witness :
    startup_check { marker := some (some 7), alive := fun _ => true } =
      StartOutcome.conflict 7 1 true false :=
  (c9_singleton_startup
    { marker := some (some 7), alive := fun _ => true }).1 7 rfl rfl

/-- Claim C10 as stated: two consecutive `skip`s always land on an idle work
segment with full work duration and unchanged `sessions`. -/
def doubleSkipIsWork : Prop :=
  ∀ s : State,
    skip (skip s) =
      { status := .idle, time_left := WORK_DURATION, sessions := s.sessions,
        is_break := false, running := false, duration := WORK_DURATION }

/-- C10 counterexample: starting from an idle short-break state, two `skip`s
land back on a break segment (300 seconds), not on a work segment. -/
theorem c10_counterexample : ¬ doubleSkipIsWork := by
  intro h
  have hc := h { status := .idle, time_left := 300, sessions := 0,
                 is_break := true, running := false, duration := 300 }
  revert hc
  decide

/-- C10 amended: two consecutive `skip`s always yield an idle state with the
segment restored to its original kind and `sessions` unchanged; the
remaining time and duration are the full work duration when the original
segment was work, and the long/short break duration rule applied to
`sessions` when it was a break. -/
theorem c10_amended_double_skip (s : State) :
    (skip (skip s)).status = Status.idle ∧
    (skip (skip s)).running = false ∧
    (skip (skip s)).is_break = s.is_break ∧
    (skip (skip s)).sessions = s.sessions ∧
    (s.is_break = false →
      (skip (skip s)).time_left = WORK_DURATION ∧
      (skip (skip s)).duration = WORK_DURATION) ∧
    (s.is_break = true →
      (skip (skip s)).time_left = breakDur s.sessions ∧
      (skip (skip s)).duration = breakDur s.sessions) := by
  simp only [skip, breakDur]
  split_ifs <;> simp_all

/-- Witness for C10 amended at a concrete idle break state with
`sessions = 0`: the double skip ends on a short break of 300 seconds. -/
theorem c10_amended_double_skip_witness :
    (skip (skip { status := .idle, time_left := 300, sessions := 0,
                  is_break := true, running := false, duration := 300 :
                  State })).time_left = breakDur 0 := by
  have h := c10_amended_double_skip
    { status := .idle, time_left := 300, sessions := 0, is_break := true,
      running := false, duration := 300 }
  exact (h.2.2.2.2.2 rfl).1

end Pomodoro
